import Mathlib

/-!
Verification of the `ApolloApi` construct
(`packages/resources/src/ApolloApi.ts` of serverless-stack).

The construct is embedded shallowly: the constructor becomes a pure
function from the caller-supplied configuration and the ambient build
environment to either an error or the constructed state, together with a
trace recording the observable build effects (whether the external codegen
tool was invoked, and which props — if any — were handed to the generic
`Api` construct via `super(...)`).

The generic `Api` base construct, the `App` execution context and the
`cross-spawn` result shape are repository/collaborator code not present in
the analysed sources; their small consumed surface is modelled from the
spec where noted.

Integration handles (`apig.HttpRouteIntegration` objects) are modelled as
natural numbers drawn from a fresh counter: the default factory returns a
previously unused number on every call, so equality of handle values in
the model corresponds to referential identity of objects in the source.
-/

namespace SST

/-- JS truthiness of an optional string (`if (props.codegen)`):
`undefined` and the empty string are falsy. -/
def strTruthy : Option String → Bool
  | none => false
  | some s => s ≠ ""

/-- `ApiPayloadFormatVersion` enum from `Api.ts` (string-valued enum
`"1.0"` / `"2.0"`; both values are truthy in JS). -/
inductive ApiPayloadFormatVersion where
  | V1
  | V2
deriving DecidableEq, Repr

/-- Errors thrown during construction, classified by the spec's error
taxonomy; each carries the exact message string built by the source. -/
inductive ConstructError where
  | configurationError (message : String)
  | codegenError (message : String)
  | internalConsistencyError (message : String)
deriving DecidableEq, Repr

/-- Message of `throw new Error(...)` for a missing `server`. -/
def missingServerMessage (id : String) : String :=
  "Missing \"server\" in the \"" ++ id ++ "\" ApolloApi"

/-- Message of `throw new Error(...)` when an explicit `routes` map was
supplied. -/
def routesMessage (id : String) : String :=
  "Please use the \"server\" option instead of the \"routes\" to configure the handler for the \"" ++ id ++ "\" ApolloApi"

/-- Message of `throw new Error(...)` when the codegen tool exits
unsuccessfully. -/
def codegenFailedMessage (id : String) : String :=
  "Failed to generate the schema for the \"" ++ id ++ "\" ApolloApi"

/-- Message of `throw new Error(...)` in the unreachable branch of the
`serverFunction` getter. -/
def serverFunctionMessage (id : String) : String :=
  "Failed to get \"serverFunction\" in the \"" ++ id ++ "\" ApolloApi"

/-- Caller-supplied configuration (`ApolloApiProps`).  `F` is the opaque
handler-descriptor type (`FunctionDefinition`), `R` the opaque bundle of
remaining generic-API fields (`...restProps`).  Absent fields are `none`.
`routes` is not a declared field of `ApolloApiProps` (it is `Omit`ted),
but a caller can still pass one at runtime; the constructor reads it via
`props as ApiProps`. -/
structure ApolloApiProps (F R : Type) where
  server : Option F := none
  rootPath : Option String := none
  defaultPayloadFormatVersion : Option ApiPayloadFormatVersion := none
  codegen : Option String := none
  routes : Option (List (String × F)) := none
  restProps : Option R := none
deriving Repr

/-- The empty record `{}` that `props || {}` falls back to when `props`
is null/undefined. -/
def emptyProps (F R : Type) : ApolloApiProps F R := {}

/-- Props handed to the generic `Api` construct by `super(...)`. -/
structure ApiProps (F R : Type) where
  routes : List (String × F)
  defaultPayloadFormatVersion : ApiPayloadFormatVersion
  restProps : Option R
deriving Repr

/-- Modelled from the spec: the generic HTTP API construct accepts a
route-to-handler mapping (plus the other fields) and records it; it
exposes `getFunction(routeKey)` as a lookup over the registered routes.
Its internal gateway machinery is out of scope. -/
structure ApiState (F R : Type) where
  props : ApiProps F R
deriving Repr

/-- Modelled from the spec: `Api.getFunction(routeKey)` returns the
handler registered for `routeKey`, or `undefined` when none is. -/
def Api.getFunction {F R : Type} (st : ApiState F R) (routeKey : String) :
    Option F :=
  (st.props.routes.find? (fun e => e.1 = routeKey)).map (·.2)

/-- Modelled from the spec: the metadata record exported by the generic
construct (`super.getConstructMetadata()`); its contents are opaque to
this component and are carried whole. -/
structure ApiMetadata (F R : Type) where
  data : ApiState F R
deriving Repr

/-- Modelled from the spec: `Api.getConstructMetadata()` exports the
generic construct's metadata; treated as a pure read of its state. -/
def Api.getConstructMetadata {F R : Type} (st : ApiState F R) :
    ApiMetadata F R :=
  ⟨st⟩

/-- `App` execution context; `localMode` models the `app.local` flag
(Lean reserves the name `local`). -/
structure App where
  localMode : Bool
deriving DecidableEq, Repr

/-- Result of `spawn.sync(...)` (cross-spawn): `status` is the exit code,
or null (`none`) when the child was killed by a signal. -/
structure SpawnResult where
  status : Option Int
deriving DecidableEq, Repr

/-- Ambient build environment: the enclosing `App` (via `App.of(scope)`)
and the result the synchronous codegen spawn would produce were it
invoked. -/
structure BuildEnv where
  app : App
  codegenResult : SpawnResult
deriving DecidableEq, Repr

/-- Observable effects of one construction attempt: whether the external
codegen tool was spawned, and the props passed to the generic `Api`
construct (`none` when `super(...)` was never reached). -/
structure BuildTrace (F R : Type) where
  codegenInvoked : Bool
  superProps : Option (ApiProps F R)
deriving Repr

/-- State of a successfully constructed `ApolloApi` instance.
`lambdaIntegration` is the lazily-created cached integration handle
(class field, initially unset); `rootPath` stores the defaulted root
path; `props` stores the original configuration record; `nodeId` is the
construct identifier (`this.node.id`). -/
structure ApolloApi (F R : Type) where
  api : ApiState F R
  lambdaIntegration : Option Nat := none
  rootPath : String
  props : ApolloApiProps F R
  nodeId : String
deriving Repr

/-- The two-entry route map built inside the `super(...)` call:
`{ [`GET rootPath`]: server, [`POST rootPath`]: server }`. -/
def deriveRoutes {F : Type} (rootPath : String) (server : F) :
    List (String × F) :=
  [("GET " ++ rootPath, server), ("POST " ++ rootPath, server)]

/-- The `ApolloApi` constructor, embedded as a pure function.  Follows
the source line by line: destructure `props || {}` (with `rootPath`
defaulting to `"/"`), validate `server`, validate the absence of an
explicit `routes` map, optionally spawn the codegen tool (skipped in
local mode and when `props.codegen` is falsy; a status other than exit
code 0 — including a null status — aborts), then delegate to the generic
`Api` construct with the remaining fields, the defaulted payload-format
version and the derived two-entry route map. -/
def ApolloApi.construct {F R : Type} (id : String)
    (propsArg : Option (ApolloApiProps F R)) (env : BuildEnv) :
    Except ConstructError (ApolloApi F R) × BuildTrace F R :=
  let props := propsArg.getD (emptyProps F R)
  let rootPath := props.rootPath.getD "/"
  match props.server with
  | none =>
      (.error (.configurationError (missingServerMessage id)),
       ⟨false, none⟩)
  | some server =>
      if props.routes.isSome then
        (.error (.configurationError (routesMessage id)), ⟨false, none⟩)
      else
        let runCodegen := strTruthy props.codegen && !env.app.localMode
        if runCodegen && env.codegenResult.status ≠ some 0 then
          (.error (.codegenError (codegenFailedMessage id)),
           ⟨true, none⟩)
        else
          let apiProps : ApiProps F R :=
            { routes := deriveRoutes rootPath server
              defaultPayloadFormatVersion :=
                props.defaultPayloadFormatVersion.getD
                  ApiPayloadFormatVersion.V1
              restProps := props.restProps }
          (.ok { api := ⟨apiProps⟩
                 lambdaIntegration := none
                 rootPath := rootPath
                 props := props
                 nodeId := id },
           ⟨runCodegen, some apiProps⟩)

/-- The `serverFunction` getter: looks up the handler registered for
`GET <rootPath>`; the not-found branch throws (commented in the source as
"This should never happen"). -/
def ApolloApi.serverFunction {F R : Type} (st : ApolloApi F R) :
    Except ConstructError F :=
  match Api.getFunction st.api ("GET " ++ st.rootPath) with
  | some f => .ok f
  | none =>
      .error (.internalConsistencyError (serverFunctionMessage st.nodeId))

/-- Metadata exported by `ApolloApi.getConstructMetadata()`: the parent
record spread whole, plus a `local` field reporting the `codegen` path
(field named `localData` here; Lean reserves `local`). -/
structure ApolloMetadata (F R : Type) where
  parent : ApiMetadata F R
  localData : Option String
deriving Repr

/-- `getConstructMetadata()`, embedded as a state-passing function so the
absence of side effects is expressible: it returns the merged record and
the (unchanged) instance state. -/
def ApolloApi.getConstructMetadata {F R : Type} (st : ApolloApi F R) :
    ApolloMetadata F R × ApolloApi F R :=
  (⟨Api.getConstructMetadata st.api, st.props.codegen⟩, st)

/-- Arguments of one `createFunctionIntegration` call (the route-specific
parameters the generic construct passes to the hook). -/
structure RouteCallArgs where
  routeKey : String
  routePropsTag : Nat
  postfixName : String
deriving DecidableEq, Repr

/-- Modelled from the spec: the generic construct's default
integration-creation logic allocates a fresh integration object on every
call; handles are numbered by a fresh counter, so distinct allocations
yield distinct handle values. -/
def Api.createFunctionIntegration (_args : RouteCallArgs) (fresh : Nat) :
    Nat × Nat :=
  (fresh, fresh + 1)

/-- Mutable state touched by the overridden hook: the instance's cached
`lambdaIntegration` slot plus the fresh-handle counter of the allocator
model. -/
structure IntegrationState where
  lambdaIntegration : Option Nat
  fresh : Nat
deriving DecidableEq, Repr

/-- The overridden `createFunctionIntegration` of `ApolloApi`: if no
integration is cached yet, delegate to `super.createFunctionIntegration`
and cache the result; then return the cached handle. -/
def ApolloApi.createFunctionIntegration (st : IntegrationState)
    (args : RouteCallArgs) : Nat × IntegrationState :=
  match st.lambdaIntegration with
  | some i => (i, st)
  | none =>
      let (i, fresh) := Api.createFunctionIntegration args st.fresh
      (i, ⟨some i, fresh⟩)

/-- Modelled from the spec: during its build the generic construct
invokes the hook once per registered route, in route-map iteration order;
this folds the overridden hook over that call sequence, collecting the
handle returned for each route. -/
def runIntegrationCalls (calls : List RouteCallArgs)
    (st : IntegrationState) : List Nat × IntegrationState :=
  match calls with
  | [] => ([], st)
  | c :: cs =>
      let (i, st') := ApolloApi.createFunctionIntegration st c
      let (is, st'') := runIntegrationCalls cs st'
      (i :: is, st'')

end SST

namespace SST

/-- Running the hook from a state that already caches handle `i` returns
`i` for every call and never touches the state or the allocator. -/
theorem runIntegrationCalls_cached (calls : List RouteCallArgs)
    (i m : Nat) :
    runIntegrationCalls calls ⟨some i, m⟩ =
      (List.replicate calls.length i, ⟨some i, m⟩) := by
  induction calls with
  | nil => rfl
  | cons c cs ih =>
      simp [runIntegrationCalls, ApolloApi.createFunctionIntegration, ih,
        List.replicate]

/-- C1: at most one integration handle is ever created per instance.  On
a fresh instance (`lambdaIntegration = none`) the overridden hook
delegates to the generic construct's default factory
`Api.createFunctionIntegration` and caches exactly its result; on a
cached instance it returns the cached handle with the state (and the
allocator) untouched, for arbitrary route-specific arguments; and over
any nonempty sequence of hook calls starting from a fresh instance every
call returns the same handle (the one the first call allocated), with the
fresh-handle counter advanced exactly once. -/
theorem apolloApi_integration_reuse (m i n : Nat)
    (args c : RouteCallArgs) (cs : List RouteCallArgs) :
    ApolloApi.createFunctionIntegration ⟨none, m⟩ args =
      ((Api.createFunctionIntegration args m).1,
       ⟨some (Api.createFunctionIntegration args m).1,
        (Api.createFunctionIntegration args m).2⟩) ∧
    ApolloApi.createFunctionIntegration ⟨some i, m⟩ args =
      (i, ⟨some i, m⟩) ∧
    runIntegrationCalls (c :: cs) ⟨none, n⟩ =
      (List.replicate (cs.length + 1) n, ⟨some n, n + 1⟩) := by
  refine ⟨rfl, rfl, ?_⟩
  simp [runIntegrationCalls, ApolloApi.createFunctionIntegration,
    Api.createFunctionIntegration, runIntegrationCalls_cached,
    List.replicate]

/-- Branch characterization: a missing `server` (after the `props || {}`
fallback) short-circuits construction with the missing-`server` error. -/
theorem construct_server_none {F R : Type} (id : String)
    (propsArg : Option (ApolloApiProps F R)) (env : BuildEnv)
    (hs : (propsArg.getD (emptyProps F R)).server = none) :
    ApolloApi.construct id propsArg env =
      (.error (.configurationError (missingServerMessage id)),
       ⟨false, none⟩) := by
  simp only [ApolloApi.construct, hs]

/-- Branch characterization: an explicitly supplied `routes` map (with
`server` present) fails construction with the use-`server`-instead
error. -/
theorem construct_routes_some {F R : Type} (id : String)
    (props : ApolloApiProps F R) (env : BuildEnv) (server : F)
    (hs : props.server = some server) (hr : props.routes.isSome = true) :
    ApolloApi.construct id (some props) env =
      (.error (.configurationError (routesMessage id)), ⟨false, none⟩) := by
  simp only [ApolloApi.construct, Option.getD_some, hs, hr, if_true]

/-- Branch characterization: with `server` present, no explicit routes,
codegen active (truthy path, non-local mode) and an unsuccessful spawn
status, construction fails with the codegen error after invoking the
tool and before reaching the generic construct. -/
theorem construct_codegen_error {F R : Type} (id : String)
    (props : ApolloApiProps F R) (env : BuildEnv) (server : F)
    (hs : props.server = some server) (hr : props.routes = none)
    (hb : (strTruthy props.codegen && !env.app.localMode) = true)
    (hst : env.codegenResult.status ≠ some 0) :
    ApolloApi.construct id (some props) env =
      (.error (.codegenError (codegenFailedMessage id)), ⟨true, none⟩) := by
  simp only [ApolloApi.construct, Option.getD_some, hs, hr, hb]
  simp [hst]

/-- Branch characterization: with `server` present, no explicit routes
and the codegen step either skipped or successful, construction succeeds
and hands the generic construct the derived props. -/
theorem construct_ok {F R : Type} (id : String)
    (props : ApolloApiProps F R) (env : BuildEnv) (server : F)
    (hs : props.server = some server) (hr : props.routes = none)
    (hc : (strTruthy props.codegen && !env.app.localMode) = false ∨
          env.codegenResult.status = some 0) :
    ApolloApi.construct id (some props) env =
      (.ok { api := ⟨⟨deriveRoutes (props.rootPath.getD "/") server,
                      props.defaultPayloadFormatVersion.getD
                        ApiPayloadFormatVersion.V1,
                      props.restProps⟩⟩
             lambdaIntegration := none
             rootPath := props.rootPath.getD "/"
             props := props
             nodeId := id },
       ⟨strTruthy props.codegen && !env.app.localMode,
        some ⟨deriveRoutes (props.rootPath.getD "/") server,
              props.defaultPayloadFormatVersion.getD
                ApiPayloadFormatVersion.V1,
              props.restProps⟩⟩) := by
  rcases hc with hc | hc
  · simp only [ApolloApi.construct, Option.getD_some, hs, hr, hc]
    simp
  · simp only [ApolloApi.construct, Option.getD_some, hs, hr, hc]
    simp

/-- A construction that succeeded (with `server` present) took exactly
the successful branch: the outcome and trace are those of
`construct_ok`. -/
theorem construct_isOk_eq {F R : Type} (id : String)
    (props : ApolloApiProps F R) (env : BuildEnv) (server : F)
    (hs : props.server = some server)
    (hok : (ApolloApi.construct id (some props) env).1.isOk = true) :
    ApolloApi.construct id (some props) env =
      (.ok { api := ⟨⟨deriveRoutes (props.rootPath.getD "/") server,
                      props.defaultPayloadFormatVersion.getD
                        ApiPayloadFormatVersion.V1,
                      props.restProps⟩⟩
             lambdaIntegration := none
             rootPath := props.rootPath.getD "/"
             props := props
             nodeId := id },
       ⟨strTruthy props.codegen && !env.app.localMode,
        some ⟨deriveRoutes (props.rootPath.getD "/") server,
              props.defaultPayloadFormatVersion.getD
                ApiPayloadFormatVersion.V1,
              props.restProps⟩⟩) := by
  have hr : props.routes = none := by
    cases hrr : props.routes with
    | none => rfl
    | some r =>
        rw [construct_routes_some id props env server hs
          (by simp [hrr])] at hok
        simp [Except.isOk, Except.toBool] at hok
  refine construct_ok id props env server hs hr ?_
  by_cases hb : (strTruthy props.codegen && !env.app.localMode) = true
  · by_cases hst : env.codegenResult.status = some 0
    · exact Or.inr hst
    · rw [construct_codegen_error id props env server hs hr hb hst] at hok
      simp [Except.isOk, Except.toBool] at hok
  · exact Or.inl (by simpa using hb)

/-- C3: a configuration omitting `server` (including an entirely absent
props record) fails with the configuration error naming the construct
identifier, with the codegen tool never invoked and nothing passed to the
generic construct (no route map derived). -/
theorem apolloApi_missing_server {F R : Type} (id : String)
    (propsArg : Option (ApolloApiProps F R)) (env : BuildEnv)
    (hs : (propsArg.getD (emptyProps F R)).server = none) :
    ApolloApi.construct id propsArg env =
      (.error (.configurationError (missingServerMessage id)),
       ⟨false, none⟩) ∧
    missingServerMessage id =
      "Missing \"server\" in the \"" ++ id ++ "\" ApolloApi" := by
  refine ⟨?_, rfl⟩
  simp only [ApolloApi.construct, hs]

/-- Witness for C3 at a concrete input: no `server`, but `codegen` set and
a failing codegen result standing by — construction still reports the
missing `server` without invoking codegen. -/
theorem apolloApi_missing_server_witness :
    ApolloApi.construct (F := Nat) (R := Unit) "MyApi"
        (some { codegen := some "codegen.yml" }) ⟨⟨false⟩, ⟨some 1⟩⟩ =
      (.error (.configurationError (missingServerMessage "MyApi")),
       ⟨false, none⟩) ∧
    missingServerMessage "MyApi" =
      "Missing \"server\" in the \"" ++ "MyApi" ++ "\" ApolloApi" :=
  apolloApi_missing_server "MyApi" (some { codegen := some "codegen.yml" })
    ⟨⟨false⟩, ⟨some 1⟩⟩ rfl

/-- C2: any successful construction passed the generic construct a route
map of exactly two entries, keyed `GET <rootPath>` and `POST <rootPath>`,
both mapping to the supplied `server`, with `rootPath` defaulting to
`"/"` when omitted. -/
theorem apolloApi_route_map {F R : Type} (id : String)
    (props : ApolloApiProps F R) (env : BuildEnv) (server : F)
    (hs : props.server = some server)
    (hok : (ApolloApi.construct id (some props) env).1.isOk = true) :
    ∃ p : ApiProps F R,
      (ApolloApi.construct id (some props) env).2.superProps = some p ∧
      p.routes = [("GET " ++ props.rootPath.getD "/", server),
                  ("POST " ++ props.rootPath.getD "/", server)] ∧
      p.routes.length = 2 ∧
      (props.rootPath = none →
        p.routes = [("GET /", server), ("POST /", server)]) := by
  rw [construct_isOk_eq id props env server hs hok]
  exact ⟨_, rfl, rfl, rfl, fun h => by rw [h]; rfl⟩

/-- Witness for C2: the spec's scenario
`{ server: H, rootPath: "/graphql" }`. -/
theorem apolloApi_route_map_witness :
    ∃ p : ApiProps Nat Unit,
      (ApolloApi.construct "MyApi"
          (some { server := some 7, rootPath := some "/graphql" })
          ⟨⟨false⟩, ⟨some 0⟩⟩).2.superProps = some p ∧
      p.routes = [("GET /graphql", 7), ("POST /graphql", 7)] ∧
      p.routes.length = 2 ∧
      ((some "/graphql" : Option String) = none →
        p.routes = [("GET /", 7), ("POST /", 7)]) :=
  apolloApi_route_map "MyApi"
    { server := some 7, rootPath := some "/graphql" }
    ⟨⟨false⟩, ⟨some 0⟩⟩ 7 rfl rfl

/-- C4: supplying both `server` and an explicit `routes` map fails with
the configuration error directing the caller to use `server` instead,
with the codegen tool not invoked and nothing passed downstream; the
`server` check runs first — a configuration missing `server` reports the
missing-`server` error even when `routes` is also present. -/
theorem apolloApi_routes_conflict {F R : Type} (id : String)
    (props props2 : ApolloApiProps F R) (env : BuildEnv) (server : F)
    (hs : props.server = some server) (hr : props.routes.isSome = true)
    (hs2 : props2.server = none) :
    ApolloApi.construct id (some props) env =
      (.error (.configurationError (routesMessage id)), ⟨false, none⟩) ∧
    routesMessage id =
      "Please use the \"server\" option instead of the \"routes\" to configure the handler for the \"" ++ id ++ "\" ApolloApi" ∧
    (ApolloApi.construct id (some props2) env).1 =
      .error (.configurationError (missingServerMessage id)) := by
  refine ⟨construct_routes_some id props env server hs hr, rfl, ?_⟩
  rw [construct_server_none id (some props2) env (by simpa using hs2)]

/-- Witness for C4: `routes` supplied alongside `server`; and a sibling
configuration with `routes` but no `server` hits the `server` check
first. -/
theorem apolloApi_routes_conflict_witness :
    ApolloApi.construct (F := Nat) (R := Unit) "MyApi"
        (some { server := some 7, routes := some [("ANY /", 9)] })
        ⟨⟨false⟩, ⟨some 0⟩⟩ =
      (.error (.configurationError (routesMessage "MyApi")),
       ⟨false, none⟩) ∧
    routesMessage "MyApi" =
      "Please use the \"server\" option instead of the \"routes\" to configure the handler for the \"" ++ "MyApi" ++ "\" ApolloApi" ∧
    (ApolloApi.construct (F := Nat) (R := Unit) "MyApi"
        (some { routes := some [("ANY /", 9)] }) ⟨⟨false⟩, ⟨some 0⟩⟩).1 =
      .error (.configurationError (missingServerMessage "MyApi")) :=
  apolloApi_routes_conflict "MyApi"
    { server := some 7, routes := some [("ANY /", 9)] }
    { routes := some [("ANY /", 9)] } ⟨⟨false⟩, ⟨some 0⟩⟩ 7 rfl rfl rfl

/-- C5: with a (truthy) `codegen` path, in non-local mode, a nonzero exit
status of the external tool fails construction with the codegen error
naming the construct identifier; the tool was invoked, but the generic
construct never was (no route map passed downstream). -/
theorem apolloApi_codegen_failure {F R : Type} (id : String)
    (props : ApolloApiProps F R) (env : BuildEnv) (server : F) (n : Int)
    (hs : props.server = some server) (hr : props.routes = none)
    (ht : strTruthy props.codegen = true)
    (hl : env.app.localMode = false)
    (hst : env.codegenResult.status = some n) (hn : n ≠ 0) :
    ApolloApi.construct id (some props) env =
      (.error (.codegenError (codegenFailedMessage id)), ⟨true, none⟩) ∧
    codegenFailedMessage id =
      "Failed to generate the schema for the \"" ++ id ++ "\" ApolloApi" := by
  refine ⟨?_, rfl⟩
  exact construct_codegen_error id props env server hs hr
    (by simp [ht, hl]) (by simp [hst, hn])

/-- Witness for C5: the spec's scenario
`{ server: H, codegen: "codegen.yml" }`, non-local mode, tool exits 1. -/
theorem apolloApi_codegen_failure_witness :
    ApolloApi.construct (F := Nat) (R := Unit) "MyApi"
        (some { server := some 7, codegen := some "codegen.yml" })
        ⟨⟨false⟩, ⟨some 1⟩⟩ =
      (.error (.codegenError (codegenFailedMessage "MyApi")),
       ⟨true, none⟩) ∧
    codegenFailedMessage "MyApi" =
      "Failed to generate the schema for the \"" ++ "MyApi" ++ "\" ApolloApi" :=
  apolloApi_codegen_failure "MyApi"
    { server := some 7, codegen := some "codegen.yml" }
    ⟨⟨false⟩, ⟨some 1⟩⟩ 7 1 rfl rfl rfl rfl rfl (by decide)

/-- C6: in local mode the external codegen tool is never invoked, whatever
the configuration (here with `codegen` set); `server` validation still
runs (failing when `server` is absent), and a configuration with `server`
present and no explicit routes constructs successfully regardless of the
codegen exit status. -/
theorem apolloApi_codegen_local {F R : Type} (id : String)
    (props : ApolloApiProps F R) (env : BuildEnv)
    (_hcg : strTruthy props.codegen = true)
    (hl : env.app.localMode = true) :
    (ApolloApi.construct id (some props) env).2.codegenInvoked = false ∧
    (props.server = none →
      (ApolloApi.construct id (some props) env).1 =
        .error (.configurationError (missingServerMessage id))) ∧
    (∀ server : F, props.server = some server → props.routes = none →
      (ApolloApi.construct id (some props) env).1.isOk = true) := by
  have hb : (strTruthy props.codegen && !env.app.localMode) = false := by
    simp [hl]
  cases hsv : props.server with
  | none =>
      rw [construct_server_none id (some props) env (by simpa using hsv)]
      exact ⟨rfl, fun _ => rfl, fun s hss => nomatch hss⟩
  | some server =>
      cases hrr : props.routes with
      | some r =>
          rw [construct_routes_some id props env server hsv
            (by simp [hrr])]
          refine ⟨rfl, fun h => ?_, fun s hss hrn => ?_⟩
          · cases h
          · cases hrn
      | none =>
          rw [construct_ok id props env server hsv hrr (Or.inl hb)]
          refine ⟨hb, fun h => ?_, fun s hss hrn => rfl⟩
          cases h

/-- Witness for C6: the spec's scenario `{ codegen: "codegen.yml" }` in
local mode (with and without `server`, and with a failing codegen result
standing by that is never consulted). -/
theorem apolloApi_codegen_local_witness :
    (ApolloApi.construct (F := Nat) (R := Unit) "MyApi"
        (some { server := some 7, codegen := some "codegen.yml" })
        ⟨⟨true⟩, ⟨some 1⟩⟩).2.codegenInvoked = false ∧
    ((some 7 : Option Nat) = none →
      (ApolloApi.construct (F := Nat) (R := Unit) "MyApi"
          (some { server := some 7, codegen := some "codegen.yml" })
          ⟨⟨true⟩, ⟨some 1⟩⟩).1 =
        .error (.configurationError (missingServerMessage "MyApi"))) ∧
    (∀ server : Nat, (some 7 : Option Nat) = some server →
      (none : Option (List (String × Nat))) = none →
      (ApolloApi.construct (F := Nat) (R := Unit) "MyApi"
          (some { server := some 7, codegen := some "codegen.yml" })
          ⟨⟨true⟩, ⟨some 1⟩⟩).1.isOk = true) :=
  apolloApi_codegen_local "MyApi"
    { server := some 7, codegen := some "codegen.yml" }
    ⟨⟨true⟩, ⟨some 1⟩⟩ rfl rfl

/-- C7: after a successful construction the `serverFunction` getter looks
up the `GET <rootPath>` route and returns exactly the supplied `server`
descriptor; on any (unreachable for constructed instances) state where
that lookup is empty, the getter throws the internal-consistency error
naming the construct rather than returning a placeholder. -/
theorem apolloApi_serverFunction {F R : Type} (id : String)
    (props : ApolloApiProps F R) (env : BuildEnv) (server : F)
    (st st2 : ApolloApi F R) (tr : BuildTrace F R)
    (hs : props.server = some server)
    (h : ApolloApi.construct id (some props) env = (.ok st, tr))
    (hnone : Api.getFunction st2.api ("GET " ++ st2.rootPath) = none) :
    st.serverFunction = .ok server ∧
    st2.serverFunction =
      .error (.internalConsistencyError (serverFunctionMessage st2.nodeId)) := by
  constructor
  · have hok : (ApolloApi.construct id (some props) env).1.isOk = true := by
      rw [h]; rfl
    have heq := construct_isOk_eq id props env server hs hok
    rw [h] at heq
    have hst : st = { api := ⟨⟨deriveRoutes (props.rootPath.getD "/") server,
                      props.defaultPayloadFormatVersion.getD
                        ApiPayloadFormatVersion.V1,
                      props.restProps⟩⟩
                      lambdaIntegration := none
                      rootPath := props.rootPath.getD "/"
                      props := props
                      nodeId := id } := by
      have := congrArg Prod.fst heq
      simpa using this
    rw [hst]
    simp [ApolloApi.serverFunction, Api.getFunction, deriveRoutes,
      List.find?]
  · simp [ApolloApi.serverFunction, hnone]

/-- Witness for C7: construction with `server = 7` at the default root
path, and a hand-built inconsistent state with an empty route table. -/
theorem apolloApi_serverFunction_witness :
    ApolloApi.serverFunction
        (F := Nat) (R := Unit)
        { api := ⟨⟨[("GET /", 7), ("POST /", 7)],
                   ApiPayloadFormatVersion.V1, none⟩⟩
          lambdaIntegration := none
          rootPath := "/"
          props := { server := some 7 }
          nodeId := "MyApi" } = .ok 7 ∧
    ApolloApi.serverFunction
        (F := Nat) (R := Unit)
        { api := ⟨⟨[], ApiPayloadFormatVersion.V1, none⟩⟩
          lambdaIntegration := none
          rootPath := "/"
          props := { server := some 7 }
          nodeId := "Broken" } =
      .error (.internalConsistencyError (serverFunctionMessage "Broken")) :=
  apolloApi_serverFunction "MyApi" { server := some 7 }
    ⟨⟨false⟩, ⟨some 0⟩⟩ 7
    { api := ⟨⟨[("GET /", 7), ("POST /", 7)],
               ApiPayloadFormatVersion.V1, none⟩⟩
      lambdaIntegration := none
      rootPath := "/"
      props := { server := some 7 }
      nodeId := "MyApi" }
    { api := ⟨⟨[], ApiPayloadFormatVersion.V1, none⟩⟩
      lambdaIntegration := none
      rootPath := "/"
      props := { server := some 7 }
      nodeId := "Broken" }
    ⟨false, some ⟨[("GET /", 7), ("POST /", 7)],
                  ApiPayloadFormatVersion.V1, none⟩⟩
    rfl rfl rfl

/-- C8: `getConstructMetadata` returns the parent (generic construct)
metadata carried whole and unchanged, plus the `local` field reporting
the configured `codegen` path, and leaves the instance state untouched
(no side effects). -/
theorem apolloApi_metadata {F R : Type} (st : ApolloApi F R) :
    (st.getConstructMetadata).1.parent = Api.getConstructMetadata st.api ∧
    (st.getConstructMetadata).1.parent.data = st.api ∧
    (st.getConstructMetadata).1.localData = st.props.codegen ∧
    (st.getConstructMetadata).2 = st :=
  ⟨rfl, rfl, rfl, rfl⟩

/-- C9: any successful construction delegated to the generic construct
with the configuration's remaining fields, the derived route map, and the
payload-format version defaulting to 1.0 when the caller omitted it and
equal to the caller's value otherwise. -/
theorem apolloApi_delegation {F R : Type} (id : String)
    (props : ApolloApiProps F R) (env : BuildEnv) (server : F)
    (hs : props.server = some server)
    (hok : (ApolloApi.construct id (some props) env).1.isOk = true) :
    (ApolloApi.construct id (some props) env).2.superProps =
      some ⟨deriveRoutes (props.rootPath.getD "/") server,
            props.defaultPayloadFormatVersion.getD
              ApiPayloadFormatVersion.V1,
            props.restProps⟩ ∧
    (props.defaultPayloadFormatVersion = none →
      props.defaultPayloadFormatVersion.getD ApiPayloadFormatVersion.V1 =
        ApiPayloadFormatVersion.V1) ∧
    (∀ v, props.defaultPayloadFormatVersion = some v →
      props.defaultPayloadFormatVersion.getD ApiPayloadFormatVersion.V1 =
        v) := by
  rw [construct_isOk_eq id props env server hs hok]
  exact ⟨rfl, fun h => by rw [h]; rfl, fun v h => by rw [h]; rfl⟩

/-- Witness for C9: caller overrides the payload-format version with 2.0
and supplies rest fields; the generic construct receives them plus the
derived routes. -/
theorem apolloApi_delegation_witness :
    (ApolloApi.construct "MyApi"
        (some { server := some 7,
                defaultPayloadFormatVersion := some ApiPayloadFormatVersion.V2,
                restProps := some 42 })
        ⟨⟨false⟩, ⟨some 0⟩⟩).2.superProps =
      some ⟨[("GET /", 7), ("POST /", 7)], ApiPayloadFormatVersion.V2,
            some 42⟩ ∧
    ((some ApiPayloadFormatVersion.V2 : Option ApiPayloadFormatVersion) =
        none →
      (some ApiPayloadFormatVersion.V2).getD ApiPayloadFormatVersion.V1 =
        ApiPayloadFormatVersion.V1) ∧
    (∀ v, (some ApiPayloadFormatVersion.V2 :
        Option ApiPayloadFormatVersion) = some v →
      (some ApiPayloadFormatVersion.V2).getD ApiPayloadFormatVersion.V1 =
        v) :=
  apolloApi_delegation (R := Nat) "MyApi"
    { server := some 7,
      defaultPayloadFormatVersion := some ApiPayloadFormatVersion.V2,
      restProps := some 42 }
    ⟨⟨false⟩, ⟨some 0⟩⟩ 7 rfl rfl

/-- C10: a null/undefined props record is guarded by the `props || {}`
fallback: construction behaves exactly as with the empty record, whose
`server` field is absent, so the failure is the intended missing-`server`
configuration error (not an unguarded field access). -/
theorem apolloApi_null_props {F R : Type} (id : String) (env : BuildEnv) :
    ApolloApi.construct (F := F) (R := R) id none env =
      (.error (.configurationError (missingServerMessage id)),
       ⟨false, none⟩) ∧
    ApolloApi.construct (F := F) (R := R) id none env =
      ApolloApi.construct id (some (emptyProps F R)) env ∧
    (emptyProps F R).server = none :=
  ⟨rfl, rfl, rfl⟩

end SST
